import Mathlib

/-!
Shallow embedding of `aten/src/ATen/SavedTensorHooks.cpp`.

The source maintains a thread-local `SavedTensorDefaultHooksTLS tls`
(a stack of `(PyObject*, PyObject*)` hook pairs, an optional disabled
error message, and a tracing flag) plus a process-wide boolean
`is_initialized`.  We model `PyObject*` as a natural number, with `0`
standing for `nullptr`, and collect the thread-local state and the
process flag into one `GlobalState` record that each operation takes
and returns explicitly.

Failure modes of the C++ code are modeled explicitly:
  * `TORCH_CHECK(cond, msg)` throws a recoverable `c10::Error` carrying
    `msg`; we model a throw as an `err` outcome carrying the message and
    the state as it stands at the moment of the throw.
  * `assert(...)` is a fatal contract check (assertion-style abort); we
    model its failure as a `fatal` outcome (for `pop_hooks`, which can
    only fail fatally, as `none`).
-/

namespace SavedTensorHooks

/-- `PyObject*` modeled as a natural number; `0` is `nullptr`. -/
abbrev PyObj := Nat

/-- The thread-local state `c10::impl::SavedTensorDefaultHooksTLS`
(fields as used by `SavedTensorHooks.cpp`): the hook stack, the optional
disabled error message, and the tracing flag.  The back of the C++
`std::vector` stack is the last element of the list. -/
structure SavedTensorDefaultHooksTLS where
  stack : List (PyObj × PyObj)
  disabled_error_message : Option String
  is_tracing : Bool
deriving DecidableEq

/-- The whole state an operation can touch: the (per-thread) TLS plus the
process-wide `is_initialized` flag from the anonymous namespace. -/
structure GlobalState where
  tls : SavedTensorDefaultHooksTLS
  is_initialized : Bool
deriving DecidableEq

/-- `SavedTensorDefaultHooks::is_enabled`:
`return !tls.disabled_error_message.has_value();` -/
def is_enabled (g : GlobalState) : Bool :=
  !g.tls.disabled_error_message.isSome

/-- `assertSavedTensorHooksNotDisabled`:
`TORCH_CHECK(SavedTensorDefaultHooks::is_enabled(), tls.disabled_error_message.value());`
Returns `none` when the check passes, and `some msg` for the thrown
message otherwise (`.value()` of the present optional). -/
def assertSavedTensorHooksNotDisabled (g : GlobalState) : Option String :=
  if is_enabled g then none
  else some (g.tls.disabled_error_message.getD "")

/-- `SavedTensorDefaultHooks::disable(message)`: first stores the message
into `tls.disabled_error_message`, then, if the stack is non-empty, runs
`assertSavedTensorHooksNotDisabled()` (which at that point necessarily
throws with the just-stored message).  Result: the state after the call
together with the thrown message, if any. -/
def disable (g : GlobalState) (message : String) : GlobalState × Option String :=
  let g1 : GlobalState :=
    { g with tls := { g.tls with disabled_error_message := some message } }
  if !g1.tls.stack.isEmpty then
    (g1, assertSavedTensorHooksNotDisabled g1)
  else
    (g1, none)

/-- `SavedTensorDefaultHooks::enable()`:
`tls.disabled_error_message = std::nullopt;` -/
def enable (g : GlobalState) : GlobalState :=
  { g with tls := { g.tls with disabled_error_message := none } }

/-- `SavedTensorDefaultHooks::set_tracing(is_tracing)`: saves the prior
value of `tls.is_tracing`, overwrites it, and returns the prior value. -/
def set_tracing (g : GlobalState) (is_tracing : Bool) : Bool × GlobalState :=
  (g.tls.is_tracing, { g with tls := { g.tls with is_tracing := is_tracing } })

/-- `SavedTensorDefaultHooks::get_disabled_error_message()`:
returns `tls.disabled_error_message` without mutation. -/
def get_disabled_error_message (g : GlobalState) : Option String :=
  g.tls.disabled_error_message

/-- `SavedTensorDefaultHooks::get_tls_state()`: returns a copy of `tls`. -/
def get_tls_state (g : GlobalState) : SavedTensorDefaultHooksTLS :=
  g.tls

/-- `SavedTensorDefaultHooks::set_tls_state(state)`: `tls = state;` -/
def set_tls_state (g : GlobalState) (state : SavedTensorDefaultHooksTLS) : GlobalState :=
  { g with tls := state }

/-- `SavedTensorDefaultHooks::lazy_initialize()` (renamed: the source
name is reserved here): `is_initialized = true;` -/
def lazy_init (g : GlobalState) : GlobalState :=
  { g with is_initialized := true }

/-- Outcome of an operation that can throw a recoverable `c10::Error`
(`err`, carrying the message and the state at the throw) or abort on a
failed `assert` (`fatal`). -/
inductive OpResult where
  | ok (g : GlobalState)
  | err (g : GlobalState) (msg : String)
  | fatal
deriving DecidableEq

/-- `SavedTensorDefaultHooks::push_hooks(pack_hook, unpack_hook)`:
`assert(is_initialized); assert(pack_hook != nullptr && unpack_hook != nullptr);
assertSavedTensorHooksNotDisabled(); tls.stack.emplace_back(pack_hook, unpack_hook);` -/
def push_hooks (g : GlobalState) (pack_hook unpack_hook : PyObj) : OpResult :=
  if !g.is_initialized then OpResult.fatal
  else if pack_hook = 0 ∨ unpack_hook = 0 then OpResult.fatal
  else
    match assertSavedTensorHooksNotDisabled g with
    | some m => OpResult.err g m
    | none =>
        OpResult.ok
          { g with tls := { g.tls with stack := g.tls.stack ++ [(pack_hook, unpack_hook)] } }

/-- `SavedTensorDefaultHooks::pop_hooks()`:
`assert(is_initialized && !tls.stack.empty());` then removes and returns
`tls.stack.back()`.  `none` models the fatal assertion failure. -/
def pop_hooks (g : GlobalState) : Option ((PyObj × PyObj) × GlobalState) :=
  if g.is_initialized && !g.tls.stack.isEmpty then
    some (g.tls.stack.getLastD (0, 0),
      { g with tls := { g.tls with stack := g.tls.stack.dropLast } })
  else none

/-- `SavedTensorDefaultHooks::get_hooks()`:
`if (!is_initialized || tls.stack.empty() || tls.is_tracing) return (nullptr, nullptr);
return tls.stack.back();` -/
def get_hooks (g : GlobalState) : PyObj × PyObj :=
  if !g.is_initialized || g.tls.stack.isEmpty || g.tls.is_tracing then (0, 0)
  else g.tls.stack.getLastD (0, 0)

/-- A push or pop operation, for reasoning about sequences of calls. -/
inductive HookOp where
  | push (pack_hook unpack_hook : PyObj)
  | pop
deriving DecidableEq

/-- One step: execute a single `HookOp` against the state. -/
def step (g : GlobalState) : HookOp → OpResult
  | HookOp.push p u => push_hooks g p u
  | HookOp.pop =>
      match pop_hooks g with
      | some (_, g1) => OpResult.ok g1
      | none => OpResult.fatal

/-- Run a sequence of `HookOp`s, stopping at the first failure. -/
def runOps (g : GlobalState) : List HookOp → OpResult
  | [] => OpResult.ok g
  | op :: rest =>
      match step g op with
      | OpResult.ok g1 => runOps g1 rest
      | OpResult.err g1 m => OpResult.err g1 m
      | OpResult.fatal => OpResult.fatal

/-- Abstract stack semantics of a `HookOp` sequence: the stack contents
after the sequence, or `none` if some pop underflows.  A sequence `ops`
is *balanced* exactly when `absRun [] ops = some []`. -/
def absRun : List (PyObj × PyObj) → List HookOp → Option (List (PyObj × PyObj))
  | st, [] => some st
  | st, HookOp.push p u :: rest => absRun (st ++ [(p, u)]) rest
  | st, HookOp.pop :: rest => if st = [] then none else absRun st.dropLast rest

theorem dropLast_append_left {α : Type} (l m : List α) (h : m ≠ []) :
    (l ++ m).dropLast = l ++ m.dropLast := by
  rcases List.eq_nil_or_concat m with rfl | ⟨L, b, rfl⟩
  · exact absurd rfl h
  · rw [List.concat_eq_append, ← List.append_assoc, List.dropLast_concat, List.dropLast_concat]

theorem getLastD_append_left {α : Type} (l m : List α) (d : α) (h : m ≠ []) :
    (l ++ m).getLastD d = m.getLastD d := by
  rcases List.eq_nil_or_concat m with rfl | ⟨L, b, rfl⟩
  · exact absurd rfl h
  · rw [List.concat_eq_append, ← List.append_assoc]
    simp [List.getLastD_eq_getLast?]

/-- `absRun` splits over an append of operation lists. -/
theorem absRun_append (l1 l2 : List HookOp) :
    ∀ st, absRun st (l1 ++ l2) = (absRun st l1).bind (fun st1 => absRun st1 l2) := by
  induction l1 with
  | nil => intro st; rfl
  | cons op rest ih =>
      intro st
      cases op with
      | push p u => simpa [absRun] using ih (st ++ [(p, u)])
      | pop =>
          by_cases h : st = []
          · simp [absRun, h]
          · simpa [absRun, h] using ih st.dropLast

/-- An abstract run that succeeds on a stack also succeeds on any stack
with extra elements below, leaving those elements untouched. -/
theorem absRun_lift (st0 : List (PyObj × PyObj)) (ops : List HookOp) :
    ∀ st st', absRun st ops = some st' → absRun (st0 ++ st) ops = some (st0 ++ st') := by
  induction ops with
  | nil =>
      intro st st' h
      simp [absRun] at h
      simp [absRun, h]
  | cons op rest ih =>
      intro st st' h
      cases op with
      | push p u =>
          rw [absRun] at h ⊢
          rw [List.append_assoc]
          exact ih (st ++ [(p, u)]) st' h
      | pop =>
          rw [absRun] at h ⊢
          by_cases hst : st = []
          · simp [hst] at h
          · rw [if_neg hst] at h
            rw [if_neg (by simp [hst]), dropLast_append_left st0 st hst]
            exact ih st.dropLast st' h

/-- Simulation: on an enabled, initialized state, a sequence of pushes of
non-null hooks and non-underflowing pops runs without error or assertion
failure, and transforms the stack exactly as `absRun` says, leaving every
other field unchanged. -/
theorem runOps_eq_absRun (ops : List HookOp) :
    ∀ (g : GlobalState) (st' : List (PyObj × PyObj)),
      g.tls.disabled_error_message = none →
      g.is_initialized = true →
      (∀ p u, HookOp.push p u ∈ ops → p ≠ 0 ∧ u ≠ 0) →
      absRun g.tls.stack ops = some st' →
      runOps g ops = OpResult.ok { g with tls := { g.tls with stack := st' } } := by
  induction ops with
  | nil =>
      intro g st' _ _ _ habs
      rw [absRun] at habs
      cases habs
      rfl
  | cons op rest ih =>
      intro g st' hdis hinit hnn habs
      cases op with
      | push p u =>
          have hp := hnn p u (List.mem_cons_self _ _)
          have hstep : push_hooks g p u =
              OpResult.ok { g with tls := { g.tls with stack := g.tls.stack ++ [(p, u)] } } := by
            simp [push_hooks, assertSavedTensorHooksNotDisabled, is_enabled, hdis, hinit,
              hp.1, hp.2]
          rw [absRun] at habs
          show (match step g (HookOp.push p u) with
            | OpResult.ok g1 => runOps g1 rest
            | OpResult.err g1 m => OpResult.err g1 m
            | OpResult.fatal => OpResult.fatal) = _
          rw [step, hstep]
          exact ih _ st' hdis hinit (fun p' u' h => hnn p' u' (List.mem_cons_of_mem _ h)) habs
      | pop =>
          rw [absRun] at habs
          by_cases hst : g.tls.stack = []
          · simp [hst] at habs
          · rw [if_neg hst] at habs
            have hstep : pop_hooks g =
                some (g.tls.stack.getLastD (0, 0),
                  { g with tls := { g.tls with stack := g.tls.stack.dropLast } }) := by
              simp [pop_hooks, hinit, hst]
            show (match step g HookOp.pop with
              | OpResult.ok g1 => runOps g1 rest
              | OpResult.err g1 m => OpResult.err g1 m
              | OpResult.fatal => OpResult.fatal) = _
            rw [step, hstep]
            exact ih _ st' hdis hinit
              (fun p' u' h => hnn p' u' (List.mem_cons_of_mem _ h)) habs

/-- On an initialized, non-tracing state whose stack ends in `(p, u)`,
`get_hooks` returns `(p, u)`. -/
theorem get_hooks_concat (g : GlobalState) (s : List (PyObj × PyObj)) (p u : PyObj)
    (hinit : g.is_initialized = true) (htr : g.tls.is_tracing = false)
    (hst : g.tls.stack = s ++ [(p, u)]) : get_hooks g = (p, u) := by
  have hne : g.tls.stack.isEmpty = false := by simp [hst]
  rw [get_hooks, hinit, htr, hne]
  simp only [Bool.not_true, Bool.false_or, Bool.or_false, if_false]
  rw [hst, getLastD_append_left s [(p, u)] (0, 0) (by simp)]
  rfl

/-- C1: on an enabled, non-tracing, initialized thread state on which
`get_hooks` reports "no handler", any balanced sequence of pushes (of
non-null hooks) and pops runs without failure; after each push the
lookup returns exactly the pair just pushed (the most recently pushed
not-yet-popped pair), and after the whole balanced sequence the lookup
reports "no handler" again. -/
theorem c1_balanced_push_pop_lookup (g : GlobalState) (ops : List HookOp)
    (hdis : g.tls.disabled_error_message = none)
    (htr : g.tls.is_tracing = false)
    (hinit : g.is_initialized = true)
    (h0 : get_hooks g = (0, 0))
    (hbal : absRun [] ops = some [])
    (hnn : ∀ p u, HookOp.push p u ∈ ops → p ≠ 0 ∧ u ≠ 0) :
    (∀ pre p u suf, ops = pre ++ HookOp.push p u :: suf →
        ∃ g1, runOps g (pre ++ [HookOp.push p u]) = OpResult.ok g1 ∧ get_hooks g1 = (p, u))
    ∧ ∃ gf, runOps g ops = OpResult.ok gf ∧ get_hooks gf = (0, 0) := by
  constructor
  · intro pre p u suf hops
    subst hops
    rw [List.append_cons, absRun_append] at hbal
    obtain ⟨st1, h1, -⟩ : ∃ st1, absRun [] (pre ++ [HookOp.push p u]) = some st1 ∧
        absRun st1 suf = some [] := by
      cases hx : absRun [] (pre ++ [HookOp.push p u]) with
      | none => rw [hx] at hbal; simp at hbal
      | some st1 => rw [hx] at hbal; exact ⟨st1, rfl, hbal⟩
    have h1' := h1
    rw [absRun_append] at h1'
    obtain ⟨st0, hpre, hlast⟩ : ∃ st0, absRun [] pre = some st0 ∧
        absRun st0 [HookOp.push p u] = some st1 := by
      cases hx : absRun [] pre with
      | none => rw [hx] at h1'; simp at h1'
      | some st0 => rw [hx] at h1'; exact ⟨st0, rfl, h1'⟩
    have hst1 : st1 = st0 ++ [(p, u)] := by
      rw [absRun, absRun] at hlast
      cases hlast
      rfl
    have hlift : absRun g.tls.stack (pre ++ [HookOp.push p u]) = some (g.tls.stack ++ st1) := by
      simpa using absRun_lift g.tls.stack (pre ++ [HookOp.push p u]) [] st1 h1
    have hnn' : ∀ p' u', HookOp.push p' u' ∈ pre ++ [HookOp.push p u] → p' ≠ 0 ∧ u' ≠ 0 := by
      intro p' u' h
      apply hnn
      rcases List.mem_append.1 h with h | h
      · exact List.mem_append_left _ h
      · simp only [List.mem_singleton] at h
        rw [h]
        exact List.mem_append_right _ (List.mem_cons_self _ _)
    refine ⟨_, runOps_eq_absRun (pre ++ [HookOp.push p u]) g (g.tls.stack ++ st1)
      hdis hinit hnn' hlift, ?_⟩
    refine get_hooks_concat _ (g.tls.stack ++ st0) p u ?_ ?_ ?_
    · exact hinit
    · exact htr
    · show g.tls.stack ++ st1 = g.tls.stack ++ st0 ++ [(p, u)]
      rw [hst1, List.append_assoc]
  · have h2 : absRun g.tls.stack ops = some g.tls.stack := by
      simpa using absRun_lift g.tls.stack ops [] [] hbal
    exact ⟨_, runOps_eq_absRun ops g g.tls.stack hdis hinit hnn h2, h0⟩

/-- Witness for C1: the balanced sequence push (1,2); push (3,4); pop; pop
starting from the fresh enabled initialized state. -/
theorem c1_balanced_push_pop_lookup_witness :
    (∃ g1, runOps ⟨⟨[], none, false⟩, true⟩ ([HookOp.push 1 2] ++ [HookOp.push 3 4]) =
        OpResult.ok g1 ∧ get_hooks g1 = (3, 4))
    ∧ ∃ gf, runOps ⟨⟨[], none, false⟩, true⟩
        [HookOp.push 1 2, HookOp.push 3 4, HookOp.pop, HookOp.pop] = OpResult.ok gf ∧
        get_hooks gf = (0, 0) := by
  have h := c1_balanced_push_pop_lookup ⟨⟨[], none, false⟩, true⟩
    [HookOp.push 1 2, HookOp.push 3 4, HookOp.pop, HookOp.pop]
    rfl rfl rfl rfl (by decide) ?hnn
  case hnn =>
    intro p u hmem
    simp only [List.mem_cons, List.not_mem_nil, or_false] at hmem
    rcases hmem with h1 | h1 | h1 | h1 <;> simp_all
  exact ⟨h.1 [HookOp.push 1 2] 3 4 [HookOp.pop, HookOp.pop] rfl, h.2⟩

/-- C2: on any state with a non-empty stack, `disable m` throws with `m`
as the message and still leaves the subsystem disabled with reason `m`
(`is_enabled` false, `get_disabled_error_message` returns `m`); on any
state with an empty stack, `disable m` succeeds. -/
theorem c2_disable_refused_when_stack_nonempty (g : GlobalState) (m : String) :
    (g.tls.stack ≠ [] →
      (disable g m).2 = some m ∧
      is_enabled (disable g m).1 = false ∧
      get_disabled_error_message (disable g m).1 = some m)
    ∧ (g.tls.stack = [] → (disable g m).2 = none) := by
  constructor
  · intro h
    simp [disable, assertSavedTensorHooksNotDisabled, is_enabled,
      get_disabled_error_message, h]
  · intro h
    simp [disable, h]

/-- Witness for C2: a one-element stack with message "x", and an empty
stack with message "y". -/
theorem c2_disable_refused_witness :
    ((disable ⟨⟨[(1, 2)], none, false⟩, true⟩ "x").2 = some "x" ∧
      is_enabled (disable ⟨⟨[(1, 2)], none, false⟩, true⟩ "x").1 = false ∧
      get_disabled_error_message (disable ⟨⟨[(1, 2)], none, false⟩, true⟩ "x").1 = some "x")
    ∧ (disable ⟨⟨[], none, false⟩, true⟩ "y").2 = none :=
  ⟨(c2_disable_refused_when_stack_nonempty ⟨⟨[(1, 2)], none, false⟩, true⟩ "x").1 (by decide),
   (c2_disable_refused_when_stack_nonempty ⟨⟨[], none, false⟩, true⟩ "y").2 rfl⟩

/-- C3: on any state whose `disabled_error_message` is `some x`, a push
of non-null hooks (with the readiness flag set, per the push contract)
throws exactly the stored message `x` and leaves the entire state — in
particular the stack — unchanged. -/
theorem c3_push_fails_when_disabled (g : GlobalState) (p u : PyObj) (x : String)
    (hdis : g.tls.disabled_error_message = some x)
    (hinit : g.is_initialized = true) (hp : p ≠ 0) (hu : u ≠ 0) :
    push_hooks g p u = OpResult.err g x := by
  simp [push_hooks, assertSavedTensorHooksNotDisabled, is_enabled, hdis, hinit, hp, hu]

/-- Witness for C3: a disabled state with reason "x". -/
theorem c3_push_fails_when_disabled_witness :
    push_hooks ⟨⟨[(1, 2)], some "x", false⟩, true⟩ 5 6 =
      OpResult.err ⟨⟨[(1, 2)], some "x", false⟩, true⟩ "x" :=
  c3_push_fails_when_disabled ⟨⟨[(1, 2)], some "x", false⟩, true⟩ 5 6 "x"
    rfl rfl (by decide) (by decide)

/-- C4: on any enabled initialized state, `set_tracing true` followed by
a push of `(p, u)` succeeds, but `get_hooks` then reports "no handler"
even though the stack is non-empty; after `set_tracing false` on that
same state, `get_hooks` returns `(p, u)`. -/
theorem c4_tracing_suppresses_lookup (g : GlobalState) (p u : PyObj)
    (hinit : g.is_initialized = true)
    (hdis : g.tls.disabled_error_message = none)
    (hp : p ≠ 0) (hu : u ≠ 0) :
    ∃ g2, push_hooks (set_tracing g true).2 p u = OpResult.ok g2 ∧
      get_hooks g2 = (0, 0) ∧
      get_hooks (set_tracing g2 false).2 = (p, u) := by
  have h1 : push_hooks (set_tracing g true).2 p u =
      OpResult.ok
        { g with tls := { g.tls with stack := g.tls.stack ++ [(p, u)], is_tracing := true } } := by
    simp [set_tracing, push_hooks, assertSavedTensorHooksNotDisabled, is_enabled,
      hdis, hinit, hp, hu]
  refine ⟨_, h1, ?_, ?_⟩
  · simp [get_hooks]
  · refine get_hooks_concat _ g.tls.stack p u ?_ ?_ ?_
    · exact hinit
    · rfl
    · rfl

/-- Witness for C4: the fresh enabled initialized state and the pair (7, 8). -/
theorem c4_tracing_suppresses_lookup_witness :
    ∃ g2, push_hooks (set_tracing ⟨⟨[], none, false⟩, true⟩ true).2 7 8 = OpResult.ok g2 ∧
      get_hooks g2 = (0, 0) ∧
      get_hooks (set_tracing g2 false).2 = (7, 8) :=
  c4_tracing_suppresses_lookup ⟨⟨[], none, false⟩, true⟩ 7 8 rfl rfl (by decide) (by decide)

/-- Counterexample to C5 as stated: at a concrete state whose readiness
flag is unset, pushing a non-null pair is a fatal assertion failure —
`push_hooks` asserts the flag instead of activating it, so a caller does
have to activate the flag separately before pushing. -/
theorem c5_push_does_not_initialize_counterexample :
    (⟨⟨[], none, false⟩, false⟩ : GlobalState).is_initialized = false ∧
    push_hooks ⟨⟨[], none, false⟩, false⟩ 1 2 = OpResult.fatal :=
  ⟨rfl, rfl⟩

/-- C5 amended: push does not itself activate the readiness flag; it
requires the flag to be already set (pushing with the flag unset is a
fatal contract violation), never changes the flag, and the flag is
activated separately by `lazy_init` (the source's `lazy_initialize`),
which is idempotent; after any successful push the flag is set. -/
theorem c5_push_requires_prior_initialization (g : GlobalState) (p u : PyObj) :
    (g.is_initialized = false → push_hooks g p u = OpResult.fatal)
    ∧ (∀ g1, push_hooks g p u = OpResult.ok g1 →
        g.is_initialized = true ∧ g1.is_initialized = true)
    ∧ (lazy_init g).is_initialized = true
    ∧ lazy_init (lazy_init g) = lazy_init g := by
  refine ⟨?_, ?_, rfl, rfl⟩
  · intro h
    simp [push_hooks, h]
  · intro g1 h
    by_cases hi : g.is_initialized = true
    · refine ⟨hi, ?_⟩
      simp only [push_hooks, hi, Bool.not_true, Bool.false_eq_true, if_false] at h
      split at h
      · simp at h
      · split at h
        · simp at h
        · injection h with h2
          rw [← h2]
    · rw [Bool.not_eq_true] at hi
      rw [push_hooks, hi] at h
      simp at h

/-- Witness for the amended C5: push at an uninitialized state is fatal,
and a successful push at an initialized state keeps the flag set. -/
theorem c5_push_requires_prior_initialization_witness :
    push_hooks ⟨⟨[], none, false⟩, false⟩ 3 4 = OpResult.fatal ∧
    ((⟨⟨[], none, false⟩, true⟩ : GlobalState).is_initialized = true ∧
      (⟨⟨[(3, 4)], none, false⟩, true⟩ : GlobalState).is_initialized = true) :=
  ⟨(c5_push_requires_prior_initialization ⟨⟨[], none, false⟩, false⟩ 3 4).1 rfl,
   (c5_push_requires_prior_initialization ⟨⟨[], none, false⟩, true⟩ 3 4).2.1
     ⟨⟨[(3, 4)], none, false⟩, true⟩ (by decide)⟩

/-- C6: restoring the state captured from the same thread is a no-op:
the round-tripped state equals the original, so every subsequent query
(`is_enabled`, `get_disabled_error_message`, `get_hooks`) and any later
operation behaves identically to not having called either. -/
theorem c6_capture_restore_roundtrip (g : GlobalState) :
    set_tls_state g (get_tls_state g) = g ∧
    is_enabled (set_tls_state g (get_tls_state g)) = is_enabled g ∧
    get_disabled_error_message (set_tls_state g (get_tls_state g)) =
      get_disabled_error_message g ∧
    get_hooks (set_tls_state g (get_tls_state g)) = get_hooks g :=
  ⟨rfl, rfl, rfl, rfl⟩

/-- C7: `set_tracing v` has no precondition, returns the prior tracing
value, sets the tracing flag to `v`, changes no other field, and
re-applying it with the returned prior value restores the original
state exactly. -/
theorem c7_set_tracing_swap (g : GlobalState) (v : Bool) :
    (set_tracing g v).1 = g.tls.is_tracing ∧
    (set_tracing g v).2 = { g with tls := { g.tls with is_tracing := v } } ∧
    (set_tracing g v).2.tls.stack = g.tls.stack ∧
    (set_tracing g v).2.tls.disabled_error_message = g.tls.disabled_error_message ∧
    (set_tracing g v).2.is_initialized = g.is_initialized ∧
    (set_tracing (set_tracing g v).2 (set_tracing g v).1).2 = g :=
  ⟨rfl, rfl, rfl, rfl, rfl, rfl⟩

/-- C8: `get_hooks` is total (never fails) and pure — modeled as a plain
function of the state it cannot mutate anything; it returns "no handler"
`(0, 0)` whenever the readiness flag is unset, the stack is empty, or
tracing is on, and otherwise returns exactly the tail element of the
stack. -/
theorem c8_get_hooks_characterization (g : GlobalState) :
    ((g.is_initialized = false ∨ g.tls.stack = [] ∨ g.tls.is_tracing = true) →
      get_hooks g = (0, 0))
    ∧ (g.is_initialized = true → g.tls.stack ≠ [] → g.tls.is_tracing = false →
      g.tls.stack.getLast? = some (get_hooks g)) := by
  constructor
  · intro h
    rcases h with h | h | h <;> simp [get_hooks, h]
  · intro hi hne htr
    rcases List.eq_nil_or_concat g.tls.stack with h | ⟨L, b, h⟩
    · exact absurd h hne
    · rw [List.concat_eq_append] at h
      rw [get_hooks_concat g L b.1 b.2 hi htr h, h]
      simp

/-- Witness for C8: an empty-stack state answers "no handler"; a state
with stack `[(5, 6)]` answers its tail element. -/
theorem c8_get_hooks_characterization_witness :
    get_hooks ⟨⟨[], none, false⟩, true⟩ = (0, 0) ∧
    ([(5, 6)] : List (PyObj × PyObj)).getLast? =
      some (get_hooks ⟨⟨[(5, 6)], none, false⟩, true⟩) :=
  ⟨(c8_get_hooks_characterization ⟨⟨[], none, false⟩, true⟩).1 (Or.inr (Or.inl rfl)),
   (c8_get_hooks_characterization ⟨⟨[(5, 6)], none, false⟩, true⟩).2 rfl (by decide) rfl⟩

/-- C9: popping with an empty stack is a fatal contract violation
(assertion failure, not a recoverable error) whatever the disabled and
tracing flags are; with the readiness flag set and a non-empty stack,
`pop_hooks` removes and returns the tail element. -/
theorem c9_pop_contract (g : GlobalState) :
    (g.tls.stack = [] → pop_hooks g = none)
    ∧ (g.is_initialized = true → g.tls.stack ≠ [] →
        ∃ pr, g.tls.stack.getLast? = some pr ∧
          pop_hooks g = some (pr,
            { g with tls := { g.tls with stack := g.tls.stack.dropLast } })) := by
  constructor
  · intro h
    simp [pop_hooks, h]
  · intro hi hne
    refine ⟨g.tls.stack.getLastD (0, 0), ?_, by simp [pop_hooks, hi, hne]⟩
    rcases List.eq_nil_or_concat g.tls.stack with h | ⟨L, b, h⟩
    · exact absurd h hne
    · rw [List.concat_eq_append] at h
      rw [h, getLastD_append_left L [b] (0, 0) (by simp)]
      simp

/-- Witness for C9: empty stack (with disabled and tracing flags set in
various ways) is fatal; a singleton stack pops its element. -/
theorem c9_pop_contract_witness :
    pop_hooks ⟨⟨[], some "d", true⟩, false⟩ = none ∧
    ∃ pr, ([(7, 8)] : List (PyObj × PyObj)).getLast? = some pr ∧
      pop_hooks ⟨⟨[(7, 8)], some "d", true⟩, true⟩ =
        some (pr, ⟨⟨[], some "d", true⟩, true⟩) :=
  ⟨(c9_pop_contract ⟨⟨[], some "d", true⟩, false⟩).1 rfl,
   (c9_pop_contract ⟨⟨[(7, 8)], some "d", true⟩, true⟩).2 rfl (by decide)⟩

/-- C10: the result of `get_hooks` does not depend on
`disabled_error_message`: changing only that field changes nothing in
the lookup result, and in particular after a (failed or successful)
`disable m` the lookup result is exactly what it was before — the top
handler pair is still returned while the subsystem is disabled. -/
theorem c10_lookup_ignores_disabled_reason (g : GlobalState) (r : Option String) (m : String) :
    get_hooks { g with tls := { g.tls with disabled_error_message := r } } = get_hooks g
    ∧ get_hooks (disable g m).1 = get_hooks g := by
  refine ⟨rfl, ?_⟩
  simp only [disable]
  split <;> rfl

end SavedTensorHooks
